import Mathlib

/-!
Verification of the csv-to-srt core library (`lib.js`).

The JavaScript source is shallowly embedded: strings are Lean `String`s
(worked on through their `List Char` data), `null`/`undefined` become
`Option`, and the character-indexed loops of the tokenizer become
structural recursion over the character list.  Every definition mirrors
one construct of the source file; the theorems at the end settle the
specification claims.
-/

namespace CsvToSrt

/-- Characters treated as whitespace by JavaScript `String.prototype.trim`
and skipped by `parseInt` (the ASCII/Latin-1 ones plus BOM; exotic Unicode
space characters are irrelevant to this development). -/
def isJsWhitespace (c : Char) : Bool :=
  c == ' ' || c == '\t' || c == '\n' || c == '\r' ||
  c == '\x0b' || c == '\x0c' || c == ' ' || c == '﻿'

/-- JavaScript `s.trim()`: drop leading and trailing whitespace. -/
def jsTrim (s : String) : String :=
  ⟨((s.data.dropWhile isJsWhitespace).reverse.dropWhile isJsWhitespace).reverse⟩

/-- Split a character list at every character satisfying `p`, keeping empty
segments, as JavaScript `String.prototype.split` with a one-character-class
regex does (`"".split` gives `[""]`, `":".split` gives `["", ""]`). -/
def splitSepChars (p : Char → Bool) : List Char → List (List Char)
  | [] => [[]]
  | c :: cs =>
    match splitSepChars p cs with
    | [] => [[]]
    | f :: rest => if p c then [] :: f :: rest else (c :: f) :: rest

/-- JavaScript `timeStr.trim().split(/[:;]/)`. -/
def splitDelim (s : String) : List String :=
  (splitSepChars (fun c => c == ':' || c == ';') s.data).map List.asString

/-- JavaScript `s.padStart(n, c)` for a one-character pad string. -/
def padStart (s : String) (n : Nat) (c : Char) : String :=
  ⟨List.replicate (n - s.data.length) c ++ s.data⟩

/-- Value of a digit string, most significant digit first. -/
def digitsToNat (ds : List Char) : Nat :=
  ds.foldl (fun a c => a * 10 + (c.toNat - 48)) 0

/-- Longest digit prefix, or `none` when there is no digit at all. -/
def parseIntDigits (cs : List Char) : Option Nat :=
  match cs.takeWhile Char.isDigit with
  | [] => none
  | ds => some (digitsToNat ds)

/-- JavaScript `parseInt(s, 10)`: skip leading whitespace, optional sign,
then the longest digit prefix; `none` models `NaN`.  (The embedding keeps
the exact integer; the double-precision loss of JavaScript on astronomical
digit strings is not modelled.) -/
def parseIntJS (s : String) : Option Int :=
  match s.data.dropWhile isJsWhitespace with
  | '-' :: rest => (parseIntDigits rest).map (fun n => -(n : Int))
  | '+' :: rest => (parseIntDigits rest).map (fun n => (n : Int))
  | cs => (parseIntDigits cs).map (fun n => (n : Int))

/-- JavaScript `Math.round((frames / 30) * 1000)` from the source, computed
exactly over the integers.  `Math.round` is round-half-up, i.e.
`⌊x + 1/2⌋`, and `frames/30*1000 + 1/2 = (frames·1000·2 + 30)/60`, whose
floor is integer division by the positive constant `60`
(`mathRoundFramesMs_eq_floor` below records this).  The value
`frames·100/3` is never half-way between two integers, so every rounding
mode agrees with the double-precision computation of the source for all
frame counts of realistic size. -/
def mathRoundFramesMs (frames : Int) : Int := (frames * 1000 * 2 + 30) / 60

/-- Function `convertTime` from `lib.js`: `HH:MM:SS:FF` (delimiter `:` or `;`,
frames at 30 fps) to `HH:MM:SS,mmm`; `none` models both a `null` argument
and a `null` result.  A fourth component that `parseInt` cannot parse
produces `NaN`, which prints as the literal text `"NaN"`. -/
def convertTime (timeStr : Option String) : Option String :=
  match timeStr with
  | none => none
  | some s =>
    if jsTrim s = "" then none
    else
      match splitDelim (jsTrim s) with
      | [h, m, sec, fr] =>
        let hours := padStart h 2 '0'
        let minutes := padStart m 2 '0'
        let seconds := padStart sec 2 '0'
        let ms :=
          match parseIntJS fr with
          | some frames => padStart (toString (mathRoundFramesMs frames)) 3 '0'
          | none => padStart "NaN" 3 '0'
        some (hours ++ ":" ++ minutes ++ ":" ++ seconds ++ "," ++ ms)
      | _ => none

/-- State step of the character loop of `parseCSVRows` from `lib.js`.
Arguments: the `inQuotes` flag, the accumulated `currentField`, the
accumulated `currentRow`, the emitted `rows`, and the remaining input.
Each equation mirrors one branch of the loop body; the one- and
two-character patterns reproduce the `csvText[i]` / `csvText[i + 1]`
lookahead together with the `i++` skips. -/
def parseRowsGo : Bool → List Char → List (List Char) →
    List (List (List Char)) → List Char → List (List (List Char))
  | _, field, row, rows, [] =>
    if field = [] ∧ row = [] then rows else rows ++ [row ++ [field]]
  | true, field, row, rows, '"' :: '"' :: rest =>
    parseRowsGo true (field ++ ['"']) row rows rest
  | q, field, row, rows, '"' :: rest =>
    parseRowsGo (!q) field row rows rest
  | false, field, row, rows, ',' :: rest =>
    parseRowsGo false [] (row ++ [field]) rows rest
  | false, field, row, rows, '\t' :: rest =>
    parseRowsGo false [] (row ++ [field]) rows rest
  | false, field, row, rows, '\r' :: '\n' :: rest =>
    if field = [] ∧ row = [] then parseRowsGo false [] [] rows rest
    else parseRowsGo false [] [] (rows ++ [row ++ [field]]) rest
  | false, field, row, rows, '\n' :: rest =>
    if field = [] ∧ row = [] then parseRowsGo false [] [] rows rest
    else parseRowsGo false [] [] (rows ++ [row ++ [field]]) rest
  | false, field, row, rows, '\r' :: rest =>
    if field = [] ∧ row = [] then parseRowsGo false [] [] rows rest
    else parseRowsGo false [] [] (rows ++ [row ++ [field]]) rest
  | q, field, row, rows, c :: rest =>
    parseRowsGo q (field ++ [c]) row rows rest

/-- Function `parseCSVRows` from `lib.js`: the full tokenizer, producing rows of
fields. -/
def parseCSVRows (csvText : String) : List (List String) :=
  (parseRowsGo false [] [] [] csvText.data).map (fun r => r.map List.asString)

/-- State step of the character loop of `parseCSVLine` from `lib.js`:
the same quote/escape/delimiter logic without line-terminator handling. -/
def parseLineGo : Bool → List Char → List (List Char) → List Char →
    List (List Char)
  | _, current, fields, [] => fields ++ [current]
  | true, current, fields, '"' :: '"' :: rest =>
    parseLineGo true (current ++ ['"']) fields rest
  | q, current, fields, '"' :: rest =>
    parseLineGo (!q) current fields rest
  | false, current, fields, ',' :: rest =>
    parseLineGo false [] (fields ++ [current]) rest
  | false, current, fields, '\t' :: rest =>
    parseLineGo false [] (fields ++ [current]) rest
  | q, current, fields, c :: rest =>
    parseLineGo q (current ++ [c]) fields rest

/-- Function `parseCSVLine` from `lib.js`: the single-line tokenizer. -/
def parseCSVLine (line : String) : List String :=
  (parseLineGo false [] [] line.data).map List.asString

/-- One subtitle entry as pushed onto `subtitles` in `csvToSrt`:
`{ start, end, text }`. -/
structure SubtitleEntry where
  start : String
  «end» : String
  text : String
deriving DecidableEq, Repr

/-- Contiguous substring test on character lists: does `pat` occur inside
`s`? -/
def hasSubstr : List Char → List Char → Bool
  | [], pat => pat.isPrefixOf ([] : List Char)
  | c :: rest, pat => pat.isPrefixOf (c :: rest) || hasSubstr rest pat

/-- JavaScript `s.includes(pat)`: contiguous substring test. -/
def jsIncludes (s pat : String) : Bool :=
  hasSubstr s.data pat.data

/-- JavaScript `s.toLowerCase()` (ASCII range, the only one the header
keywords use). -/
def jsToLower (s : String) : String :=
  ⟨s.data.map Char.toLower⟩

/-- The skip test of the row loop of `csvToSrt`: empty rows, blank rows and
header rows (`fields.length === 0 || fields.join("").trim() === "" ||
rowText.includes("speaker name") || (rowText.includes("start time") &&
rowText.includes("end time"))` with `rowText = fields.join(",").toLowerCase()`). -/
def skipRow (fields : List String) : Bool :=
  let rowText := jsToLower (String.intercalate "," fields)
  fields.length == 0 || jsTrim (String.join fields) == "" ||
  jsIncludes rowText "speaker name" ||
  (jsIncludes rowText "start time" && jsIncludes rowText "end time")

/-- The format-detection branch of the row loop of `csvToSrt`: the
`(startTime, endTime, text)` triple assigned by the two `if` branches, or
`none` when neither branch runs (the three variables stay `undefined`).
`fields.get? i` models `fields[i]` (`none` = `undefined`). -/
def classifyRow (fields : List String) : Option (Option String × Option String × Option String) :=
  let firstColIsTime := (convertTime (fields.get? 0)).isSome
  if firstColIsTime ∧ 3 ≤ fields.length then
    some (convertTime (fields.get? 0), convertTime (fields.get? 1), fields.get? 2)
  else if ¬firstColIsTime ∧ 4 ≤ fields.length then
    some (convertTime (fields.get? 1), convertTime (fields.get? 2), fields.get? 3)
  else none

/-- The entry-construction filter of the row loop of `csvToSrt`:
`if (startTime && endTime && text && text.trim() !== "")` push
`{ start, end, text: text.trim() }`.  A JavaScript string is truthy
exactly when it is non-empty and `null`/`undefined` are falsy. -/
def extractRow (fields : List String) : Option SubtitleEntry :=
  match classifyRow fields with
  | some (some st, some en, some tx) =>
    if st ≠ "" ∧ en ≠ "" ∧ tx ≠ "" ∧ jsTrim tx ≠ "" then
      some ⟨st, en, jsTrim tx⟩
    else none
  | _ => none

/-- One full iteration of the row loop of `csvToSrt`: `continue` on the
skip test, otherwise classify and filter. -/
def rowToEntry (fields : List String) : Option SubtitleEntry :=
  if skipRow fields then none else extractRow fields

/-- The whole row loop of `csvToSrt`: the `subtitles` array it builds. -/
def extractSubtitles (rows : List (List String)) : List SubtitleEntry :=
  rows.filterMap rowToEntry

/-- Tail of the gap-removal loop of `csvToSrt`
(`subtitles[i].start = subtitles[i-1].end` for `i = 1, ...`): `prev` is
the already-processed predecessor entry.  Its `end` field is never
written by the loop, so reading it after the previous iteration is the
same as reading it before the loop. -/
def closeGapsGo (prev : SubtitleEntry) : List SubtitleEntry → List SubtitleEntry
  | [] => []
  | e :: rest =>
    let e' := { e with start := prev.«end» }
    e' :: closeGapsGo e' rest

/-- The gap-removal loop of `csvToSrt`, as a function from the original
`subtitles` list to the mutated one.  Index 0 is untouched. -/
def closeGaps : List SubtitleEntry → List SubtitleEntry
  | [] => []
  | e :: rest => e :: closeGapsGo e rest

/-- The SRT-generation loop of `csvToSrt`: `counter` is the current
0-based index `i`; the inner `if (i < subtitles.length - 1)` is `rest ≠ []`. -/
def srtGo : Nat → List SubtitleEntry → String
  | _, [] => ""
  | i, e :: rest =>
    toString (i + 1) ++ "\n" ++ e.start ++ " --> " ++ e.«end» ++ "\n" ++
      e.text ++ "\n" ++ (match rest with | [] => "" | _ :: _ => "\n") ++
      srtGo (i + 1) rest

/-- The SRT serializer of `csvToSrt` (the final loop building `srt`). -/
def srtSerialize (subs : List SubtitleEntry) : String :=
  srtGo 0 subs

/-- JavaScript `csvText.replace(/\r\n/g, "\n")`: left-to-right,
non-overlapping global replacement. -/
def replaceCRLF : List Char → List Char
  | '\r' :: '\n' :: rest => '\n' :: replaceCRLF rest
  | c :: rest => c :: replaceCRLF rest
  | [] => []

/-- The line-ending normalization of `csvToSrt`:
`csvText.replace(/\r\n/g, "\n").replace(/\r/g, "\n")`. -/
def normalizeNewlines (s : String) : String :=
  ⟨(replaceCRLF s.data).map (fun c => if c = '\r' then '\n' else c)⟩

/-- The `try` block of `csvToSrt`: the whole pipeline.  `none` models a
`null` argument.  Every JavaScript operation it performs is total on
strings, so no branch produces `Except.error`; the `Except` codomain
records where a thrown exception would surface. -/
def csvToSrtBody (csvText : Option String) (removeGaps : Bool) : Except String String :=
  match csvText with
  | none => .ok ""
  | some t =>
    if jsTrim t = "" then .ok ""
    else
      let t' := normalizeNewlines t
      let rows := parseCSVRows t'
      let subtitles := extractSubtitles rows
      let subtitles' := if removeGaps then closeGaps subtitles else subtitles
      .ok (srtSerialize subtitles')

/-- Function `csvToSrt` from `lib.js`: the `try`/`catch` wrapper around the
pipeline.  `removeGaps` is the option record's field (default `true` at
the call sites). -/
def csvToSrt (csvText : Option String) (removeGaps : Bool := true) : String :=
  match csvToSrtBody csvText removeGaps with
  | .ok s => s
  | .error m => "Error generating SRT: " ++ m

/-- Spec-side predicate: the string matches `HH:MM:SS,mmm` — two digits,
colon, two digits, colon, two digits, comma, three digits. -/
def isSrtTimeFormat (s : String) : Bool :=
  match s.data with
  | [h1, h2, c1, m1, m2, c2, s1, s2, c3, d1, d2, d3] =>
    h1.isDigit && h2.isDigit && c1 == ':' && m1.isDigit && m2.isDigit &&
    c2 == ':' && s1.isDigit && s2.isDigit && c3 == ',' &&
    d1.isDigit && d2.isDigit && d3.isDigit
  | _ => false

/-- Helper predicate: the string is exactly three decimal digits. -/
def threeDigitsOk (s : String) : Bool :=
  match s.data with
  | [a, b, c] => a.isDigit && b.isDigit && c.isDigit
  | _ => false

/-- Spec-side description of one serialized entry (§4.5 of the spec): for
the entry at 0-based index `i` emit `(i+1)`, then `start --> end`, then
the text, each line terminated by a newline. -/
def entryBlock (n : Nat) (e : SubtitleEntry) : String :=
  toString n ++ "\n" ++ e.start ++ " --> " ++ e.«end» ++ "\n" ++ e.text ++ "\n"

/-- Spec-side joining of entry blocks: one blank line between consecutive
entries (each block already ends with a newline, so the blank line is one
extra newline), none after the last, empty list to empty string. -/
def blocksJoin : List String → String
  | [] => ""
  | [b] => b
  | b :: bs => b ++ "\n" ++ blocksJoin bs

/-- Spec-side description of the whole SRT serialization: blocks numbered
`1..n` in order, blank-line separated. -/
def srtSpecFormat (subs : List SubtitleEntry) : String :=
  blocksJoin (subs.mapIdx fun i e => entryBlock (i + 1) e)

example : convertTime (some "1:2:3:4") = some "01:02:03,133" := by decide
example : convertTime (some "00:00:00:13") = some "00:00:00,433" := by decide
example : convertTime (some "00:00:02:06") = some "00:00:02,200" := by decide
example : convertTime (some "01:23:45:29") = some "01:23:45,967" := by decide
example : convertTime (some "00:00:03;00") = some "00:00:03,000" := by decide
example : parseCSVRows "a,b,c\n1,2,3" = [["a", "b", "c"], ["1", "2", "3"]] := by decide
example : parseCSVRows "\"hello\",\"world with \"\"quotes\"\"\"" =
    [["hello", "world with \"quotes\""]] := by decide
example : parseCSVLine "field1,field2,field3" = ["field1", "field2", "field3"] := by decide
example : parseCSVRows "a\n\n\nb" = [["a"], ["b"]] := by decide
example : parseCSVRows "x\r\ny" = [["x"], ["y"]] := by decide
example : parseCSVRows "\"multi\nline\",z" = [["multi\nline", "z"]] := by decide
example : csvToSrt (some "") = "" := by decide
example : csvToSrt (some "   ") = "" := by decide
example : csvToSrt none = "" := by decide
example :
    csvToSrt (some ",00:00:00:13,00:00:02:06,運営します\n,00:00:02:06,00:00:03:29,言いますね") false =
      "1\n00:00:00,433 --> 00:00:02,200\n運営します\n\n2\n00:00:02,200 --> 00:00:03,967\n言いますね\n" := by
  decide
example :
    csvToSrt (some "Speaker Name,Start Time,End Time,Text\nA,00:00:01:00,00:00:03:00,Hello") true =
      "1\n00:00:01,000 --> 00:00:03,000\nHello\n" := by decide
example :
    csvToSrt (some "00:00:01:00,00:00:03:00,Hello\n00:00:04:00,00:00:05:00,World") true =
      "1\n00:00:01,000 --> 00:00:03,000\nHello\n\n2\n00:00:03,000 --> 00:00:05,000\nWorld\n" := by
  decide

/-- The integer-division implementation of `Math.round((frames/30)*1000)`
agrees with the rational round-half-up formula. -/
theorem mathRoundFramesMs_eq_floor (f : Int) :
    mathRoundFramesMs f = ⌊(f : ℚ) / 30 * 1000 + 1 / 2⌋ := by
  have h : ((f : ℚ) / 30 * 1000 + 1 / 2) =
      ((f * 1000 * 2 + 30 : Int) : ℚ) / ((60 : Nat) : ℚ) := by
    push_cast
    ring
  rw [mathRoundFramesMs, h, Rat.floor_intCast_div_natCast]
  norm_num

/-- Unfolding `convertTime` on an input that survives the guards. -/
theorem convertTime_some_of_parts (s p0 p1 p2 p3 : String) (f : Int)
    (h1 : jsTrim s ≠ "") (h2 : splitDelim (jsTrim s) = [p0, p1, p2, p3])
    (h3 : parseIntJS p3 = some f) :
    convertTime (some s) =
      some (padStart p0 2 '0' ++ ":" ++ padStart p1 2 '0' ++ ":" ++
        padStart p2 2 '0' ++ "," ++
        padStart (toString (mathRoundFramesMs f)) 3 '0') := by
  simp only [convertTime, h2, h3, if_neg h1]

/-- A list of length four is a literal four-element list. -/
theorem length_four_exists {α : Type} {l : List α} (h : l.length = 4) :
    ∃ a b c d, l = [a, b, c, d] := by
  match l with
  | [a, b, c, d] => exact ⟨a, b, c, d, rfl⟩
  | [] | [_] | [_, _] | [_, _, _] => simp at h
  | _ :: _ :: _ :: _ :: _ :: _ => simp at h

/-- Function `convertTime` rejects exactly the guarded inputs. -/
theorem convertTime_some_eq_none_iff (s : String) :
    convertTime (some s) = none ↔
      (jsTrim s = "" ∨ (splitDelim (jsTrim s)).length ≠ 4) := by
  by_cases h1 : jsTrim s = ""
  · simp [convertTime, h1]
  · simp only [convertTime, if_neg h1]
    generalize splitDelim (jsTrim s) = l
    rcases l with _ | ⟨a, _ | ⟨b, _ | ⟨c, _ | ⟨d, _ | ⟨e, l⟩⟩⟩⟩⟩ <;>
      simp [h1]

/-- C2: on any input that trims to non-empty text and splits into exactly
four components on `:`/`;` whose fourth component parses as an integer
frame count, `convertTime` pads the first three components to two
characters with `'0'`, joins them with `:`, and appends `,` and
`round(frames/30·1000)` padded to three digits; in particular the four
concrete conversions of the spec hold. -/
theorem claim2_convertTime_format :
    (∀ (s p0 p1 p2 p3 : String) (f : Int),
      jsTrim s ≠ "" → splitDelim (jsTrim s) = [p0, p1, p2, p3] →
      parseIntJS p3 = some f →
      convertTime (some s) =
        some (padStart p0 2 '0' ++ ":" ++ padStart p1 2 '0' ++ ":" ++
          padStart p2 2 '0' ++ "," ++
          padStart (toString ⌊(f : ℚ) / 30 * 1000 + 1 / 2⌋) 3 '0')) ∧
    convertTime (some "1:2:3:4") = some "01:02:03,133" ∧
    convertTime (some "00:00:00:13") = some "00:00:00,433" ∧
    convertTime (some "00:00:02:06") = some "00:00:02,200" ∧
    convertTime (some "01:23:45:29") = some "01:23:45,967" := by
  refine ⟨?_, by decide, by decide, by decide, by decide⟩
  intro s p0 p1 p2 p3 f h1 h2 h3
  rw [convertTime_some_of_parts s p0 p1 p2 p3 f h1 h2 h3,
    mathRoundFramesMs_eq_floor]

/-- Witness for C2 at the concrete input `"1:2:3:4"`. -/
theorem claim2_convertTime_format_witness :
    jsTrim "1:2:3:4" ≠ "" ∧
    splitDelim (jsTrim "1:2:3:4") = ["1", "2", "3", "4"] ∧
    parseIntJS "4" = some 4 ∧
    convertTime (some "1:2:3:4") =
      some (padStart "1" 2 '0' ++ ":" ++ padStart "2" 2 '0' ++ ":" ++
        padStart "3" 2 '0' ++ "," ++
        padStart (toString ⌊(4 : ℚ) / 30 * 1000 + 1 / 2⌋) 3 '0') :=
  ⟨by decide, by decide, by decide,
    claim2_convertTime_format.1 "1:2:3:4" "1" "2" "3" "4" 4
      (by decide) (by decide) (by decide)⟩

/-- C7: `convertTime` returns `null` exactly when the input is `null`,
empty or whitespace-only, or the trimmed input does not split into exactly
four components on `:`/`;`; no error is raised in these cases, and the
five concrete invalid inputs of the spec all yield `null`. -/
theorem claim7_convertTime_null_iff :
    (∀ t : Option String,
      convertTime t = none ↔
        (t = none ∨ ∃ s, t = some s ∧
          (jsTrim s = "" ∨ (splitDelim (jsTrim s)).length ≠ 4))) ∧
    convertTime (some "") = none ∧
    convertTime (some "  ") = none ∧
    convertTime none = none ∧
    convertTime (some "00:00:00") = none ∧
    convertTime (some "invalid") = none := by
  refine ⟨?_, by decide, by decide, by decide, by decide, by decide⟩
  intro t
  match t with
  | none => simp [convertTime]
  | some s => simp [convertTime_some_eq_none_iff]

/-- Witness for C7 at the concrete input `"00:00:00"`. -/
theorem claim7_convertTime_null_iff_witness :
    convertTime (some "00:00:00") = none ↔
      ((some "00:00:00" : Option String) = none ∨ ∃ s, some "00:00:00" = some s ∧
        (jsTrim s = "" ∨ (splitDelim (jsTrim s)).length ≠ 4)) :=
  claim7_convertTime_null_iff.1 (some "00:00:00")

/-- C6: `csvToSrt` always returns a string: on `null`, empty or
whitespace-only input it returns the empty string; the pipeline body never
produces an internal error (so nothing is raised to the caller); and any
error the body could produce would be returned as the string
`"Error generating SRT: <message>"` by the catch wrapper. -/
theorem claim6_csvToSrt_total :
    ∀ (t : Option String) (g : Bool),
      ((t = none ∨ ∃ s, t = some s ∧ jsTrim s = "") → csvToSrt t g = "") ∧
      (∃ out, csvToSrtBody t g = Except.ok out ∧ csvToSrt t g = out) ∧
      (∀ m, csvToSrtBody t g = Except.error m →
        csvToSrt t g = "Error generating SRT: " ++ m) := by
  intro t g
  refine ⟨?_, ?_, ?_⟩
  · rintro (rfl | ⟨s, rfl, hs⟩)
    · rfl
    · simp [csvToSrt, csvToSrtBody, hs]
  · match t with
    | none => exact ⟨"", rfl, rfl⟩
    | some s =>
      by_cases hs : jsTrim s = ""
      · exact ⟨"", by simp [csvToSrtBody, hs], by simp [csvToSrt, csvToSrtBody, hs]⟩
      · refine ⟨srtSerialize
          (if g then closeGaps (extractSubtitles (parseCSVRows (normalizeNewlines s)))
          else extractSubtitles (parseCSVRows (normalizeNewlines s))), ?_, ?_⟩ <;>
          simp [csvToSrt, csvToSrtBody, hs]
  · intro m hm
    simp [csvToSrt, hm]

/-- Witness for C6 at concrete inputs. -/
theorem claim6_csvToSrt_total_witness :
    csvToSrt (some "  ") true = "" ∧
    (∃ out, csvToSrtBody (some "a") true = Except.ok out ∧
      csvToSrt (some "a") true = out) :=
  ⟨(claim6_csvToSrt_total (some "  ") true).1 (Or.inr ⟨"  ", rfl, by decide⟩),
    (claim6_csvToSrt_total (some "a") true).2.1⟩

/-- C5: inside a quoted field, a comma or tab is accumulated into the
field instead of splitting it, and an escaped quote `""` appends one
literal `"` while staying inside the quoted field, in both tokenizers;
together with the three concrete conversions of the spec (and the same
concrete inputs through the full tokenizer). -/
theorem claim5_quoting :
    (∀ (field : List Char) (row : List (List Char))
        (rows : List (List (List Char))) (rest : List Char),
      parseRowsGo true field row rows (',' :: rest) =
        parseRowsGo true (field ++ [',']) row rows rest ∧
      parseRowsGo true field row rows ('\t' :: rest) =
        parseRowsGo true (field ++ ['\t']) row rows rest ∧
      parseRowsGo true field row rows ('"' :: '"' :: rest) =
        parseRowsGo true (field ++ ['"']) row rows rest) ∧
    (∀ (current : List Char) (fields : List (List Char)) (rest : List Char),
      parseLineGo true current fields (',' :: rest) =
        parseLineGo true (current ++ [',']) fields rest ∧
      parseLineGo true current fields ('\t' :: rest) =
        parseLineGo true (current ++ ['\t']) fields rest ∧
      parseLineGo true current fields ('"' :: '"' :: rest) =
        parseLineGo true (current ++ ['"']) fields rest) ∧
    parseCSVLine "\"He said \"\"hello\"\"\"" = ["He said \"hello\""] ∧
    parseCSVLine "\"hello, world\",test" = ["hello, world", "test"] ∧
    parseCSVLine "a\tb\tc" = ["a", "b", "c"] ∧
    parseCSVRows "\"He said \"\"hello\"\"\"" = [["He said \"hello\""]] ∧
    parseCSVRows "\"hello, world\",test" = [["hello, world", "test"]] :=
  ⟨fun _ _ _ _ => ⟨rfl, rfl, rfl⟩, fun _ _ _ => ⟨rfl, rfl, rfl⟩,
    by decide, by decide, by decide, by decide, by decide⟩

/-- C9: at a line terminator outside quotes, `parseCSVRows` emits a row
exactly when the current field buffer or the current row is non-empty, so
runs of terminators yield no spurious empty rows; a line whose content is
blank but non-empty (here a single space) still yields one row entry,
which the downstream skip rule discards. -/
theorem claim9_blank_rows :
    (∀ (rows : List (List (List Char))) (rest : List Char),
      parseRowsGo false [] [] rows ('\n' :: rest) =
        parseRowsGo false [] [] rows rest ∧
      parseRowsGo false [] [] rows ('\r' :: '\n' :: rest) =
        parseRowsGo false [] [] rows rest ∧
      parseRowsGo false [] [] rows ('\r' :: rest) =
        parseRowsGo false [] [] rows rest) ∧
    (∀ (field : List Char) (row : List (List Char))
        (rows : List (List (List Char))) (rest : List Char),
      ¬(field = [] ∧ row = []) →
      parseRowsGo false field row rows ('\n' :: rest) =
        parseRowsGo false [] [] (rows ++ [row ++ [field]]) rest) ∧
    parseCSVRows "a\n\n\n\nb" = [["a"], ["b"]] ∧
    parseCSVRows "a\n \nb" = [["a"], [" "], ["b"]] ∧
    skipRow [" "] = true := by
  refine ⟨fun rows rest => ⟨?_, ?_, ?_⟩, fun field row rows rest hne => ?_,
    by decide, by decide, by decide⟩
  · simp [parseRowsGo]
  · simp [parseRowsGo]
  · -- A bare carriage return: when the next character happens to be a
    -- newline the loop consumes both at once, but that newline would have
    -- been a no-op terminator anyway, so the equation still holds.
    rcases rest with _ | ⟨c, rest2⟩
    · simp [parseRowsGo]
    · by_cases hc : c = '\n'
      · subst hc
        simp [parseRowsGo]
      · simp [parseRowsGo, hc]
  · simp only [parseRowsGo, if_neg hne]

/-- Witness for C9's conditional part at a concrete non-empty field. -/
theorem claim9_blank_rows_witness :
    ¬((['a'] : List Char) = [] ∧ ([] : List (List Char)) = []) ∧
    parseRowsGo false ['a'] [] [] ('\n' :: []) =
      parseRowsGo false [] [] ([] ++ [[] ++ [['a']]]) [] :=
  ⟨by simp, claim9_blank_rows.2.1 ['a'] [] [] [] (by simp)⟩

/-- Rows pushed by the tokenizer always carry at least one field. -/
theorem mem_push_ne_nil {rows : List (List (List Char))}
    {row : List (List Char)} {field : List Char}
    (h : ∀ r ∈ rows, r ≠ []) :
    ∀ r ∈ rows ++ [row ++ [field]], r ≠ [] := by
  intro r hr
  rcases List.mem_append.1 hr with h1 | h2
  · exact h r h1
  · simp only [List.mem_singleton] at h2
    subst h2
    simp

/-- Invariant of the tokenizer loop: every emitted row is non-empty. -/
theorem parseRowsGo_rows_ne_nil :
    ∀ (q : Bool) (field : List Char) (row : List (List Char))
      (rows : List (List (List Char))) (cs : List Char),
      (∀ r ∈ rows, r ≠ []) → ∀ r ∈ parseRowsGo q field row rows cs, r ≠ [] := by
  intro q field row rows cs
  induction q, field, row, rows, cs using parseRowsGo.induct <;> intro h r hr <;>
    simp only [parseRowsGo] at hr <;> try split at hr
  all_goals solve_by_elim [mem_push_ne_nil]

/-- C10: every row returned by `parseCSVRows` has at least one field, and
on such rows the skip test of `csvToSrt` degenerates to its
blank/header clauses — the zero-field branch is never taken. -/
theorem claim10_rows_nonempty :
    (∀ (s : String), ∀ r ∈ parseCSVRows s, r ≠ []) ∧
    (∀ (s : String), ∀ r ∈ parseCSVRows s,
      skipRow r = (jsTrim (String.join r) == "" ||
        jsIncludes (jsToLower (String.intercalate "," r)) "speaker name" ||
        (jsIncludes (jsToLower (String.intercalate "," r)) "start time" &&
          jsIncludes (jsToLower (String.intercalate "," r)) "end time"))) := by
  have key : ∀ (s : String), ∀ r ∈ parseCSVRows s, r ≠ [] := by
    intro s r hr
    rcases List.mem_map.1 hr with ⟨r', hr', rfl⟩
    have := parseRowsGo_rows_ne_nil false [] [] [] s.data (by simp) r' hr'
    simpa using this
  refine ⟨key, fun s r hr => ?_⟩
  rcases r with _ | ⟨a, t⟩
  · exact absurd rfl (key s [] hr)
  · simp [skipRow]

/-- Witness for C10 at a concrete input and row. -/
theorem claim10_rows_nonempty_witness :
    (["a"] : List String) ∈ parseCSVRows "a" ∧
    (["a"] : List String) ≠ [] ∧
    skipRow ["a"] = (jsTrim (String.join ["a"]) == "" ||
      jsIncludes (jsToLower (String.intercalate "," ["a"])) "speaker name" ||
      (jsIncludes (jsToLower (String.intercalate "," ["a"])) "start time" &&
        jsIncludes (jsToLower (String.intercalate "," ["a"])) "end time")) :=
  ⟨by decide, claim10_rows_nonempty.1 "a" ["a"] (by decide),
    claim10_rows_nonempty.2 "a" ["a"] (by decide)⟩

/-- C1: for a row that survives the skip rule, the classifier yields the
3-column candidate when field 0 converts and the row has at least three
fields, the 4-column candidate when field 0 does not convert and the row
has at least four fields, and no subtitle entry when neither condition
holds; one input mixing a 4-column and a 3-column row extracts both
entries accordingly. -/
theorem claim1_row_classification :
    (∀ fields : List String, skipRow fields = false →
      ((convertTime (fields.get? 0)).isSome = true → 3 ≤ fields.length →
        classifyRow fields =
          some (convertTime (fields.get? 0), convertTime (fields.get? 1),
            fields.get? 2)) ∧
      ((convertTime (fields.get? 0)).isSome = false → 4 ≤ fields.length →
        classifyRow fields =
          some (convertTime (fields.get? 1), convertTime (fields.get? 2),
            fields.get? 3)) ∧
      (¬((convertTime (fields.get? 0)).isSome = true ∧ 3 ≤ fields.length) →
        ¬((convertTime (fields.get? 0)).isSome = false ∧ 4 ≤ fields.length) →
        rowToEntry fields = none)) ∧
    extractSubtitles
        [["Speaker A", "0:0:1:0", "0:0:2:0", "Hello"],
          ["0:0:2:0", "0:0:3:0", "World"]] =
      [⟨"00:00:01,000", "00:00:02,000", "Hello"⟩,
        ⟨"00:00:02,000", "00:00:03,000", "World"⟩] := by
  refine ⟨fun fields hskip => ⟨?_, ?_, ?_⟩, by decide⟩
  · intro h1 h3
    simp only [classifyRow]
    split
    · rfl
    · rename_i hc
      exact absurd ⟨h1, h3⟩ hc
  · intro h1 h4
    simp only [classifyRow]
    split
    · rename_i hc
      rw [h1] at hc
      exact absurd hc.1 (by simp)
    · split
      · rfl
      · rename_i hc2
        exact absurd ⟨by simpa using h1, h4⟩ hc2
  · intro hc1 hc2
    have hcl : classifyRow fields = none := by
      simp only [classifyRow]
      rw [if_neg, if_neg]
      · intro hand
        exact hc2 ⟨by simpa using hand.1, hand.2⟩
      · intro hand
        exact hc1 ⟨by simpa using hand.1, hand.2⟩
    simp [rowToEntry, extractRow, hcl, hskip]

/-- Witness for C1 at a concrete 3-column row. -/
theorem claim1_row_classification_witness :
    skipRow ["0:0:1:0", "0:0:2:0", "Hi"] = false ∧
    (convertTime ((["0:0:1:0", "0:0:2:0", "Hi"] : List String).get? 0)).isSome = true ∧
    3 ≤ (["0:0:1:0", "0:0:2:0", "Hi"] : List String).length ∧
    classifyRow ["0:0:1:0", "0:0:2:0", "Hi"] =
      some (convertTime ((["0:0:1:0", "0:0:2:0", "Hi"] : List String).get? 0),
        convertTime ((["0:0:1:0", "0:0:2:0", "Hi"] : List String).get? 1),
        (["0:0:1:0", "0:0:2:0", "Hi"] : List String).get? 2) :=
  ⟨by decide, by decide, by decide,
    (claim1_row_classification.1 ["0:0:1:0", "0:0:2:0", "Hi"] (by decide)).1
      (by decide) (by decide)⟩

/-- The gap-removal loop preserves list length. -/
theorem closeGapsGo_length (l : List SubtitleEntry) :
    ∀ prev, (closeGapsGo prev l).length = l.length := by
  induction l with
  | nil => intro prev; rfl
  | cons e rest ih => intro prev; simp [closeGapsGo, ih]

/-- The gap-removal loop never touches `end` fields. -/
theorem closeGapsGo_end (l : List SubtitleEntry) :
    ∀ prev i, ((closeGapsGo prev l).get? i).map SubtitleEntry.«end» =
      (l.get? i).map SubtitleEntry.«end» := by
  induction l with
  | nil => intro prev i; rfl
  | cons e rest ih =>
    intro prev i
    cases i with
    | zero => rfl
    | succ j => simpa [closeGapsGo] using ih _ j

/-- The gap-removal loop never touches `text` fields. -/
theorem closeGapsGo_text (l : List SubtitleEntry) :
    ∀ prev i, ((closeGapsGo prev l).get? i).map SubtitleEntry.text =
      (l.get? i).map SubtitleEntry.text := by
  induction l with
  | nil => intro prev i; rfl
  | cons e rest ih =>
    intro prev i
    cases i with
    | zero => rfl
    | succ j => simpa [closeGapsGo] using ih _ j

/-- Each entry processed by the gap-removal loop gets the `end` of its
predecessor (`prev` playing the predecessor of the head) as `start`. -/
theorem closeGapsGo_start (l : List SubtitleEntry) :
    ∀ prev i, i < l.length →
      ((closeGapsGo prev l).get? i).map SubtitleEntry.start =
        ((prev :: l).get? i).map SubtitleEntry.«end» := by
  induction l with
  | nil =>
    intro prev i h
    exact absurd h (by simp)
  | cons e rest ih =>
    intro prev i h
    cases i with
    | zero => rfl
    | succ j =>
      have hj : j < rest.length := by simpa using h
      have step := ih { e with start := prev.«end» } j hj
      cases j with
      | zero => simpa [closeGapsGo] using step
      | succ m => simpa [closeGapsGo] using step

/-- C3: after gap removal, every entry at index `i ≥ 1` starts where entry
`i - 1` ends; lengths, all `end` fields, all `text` fields and the first
entry's `start` are unchanged. -/
theorem claim3_close_gaps :
    ∀ l : List SubtitleEntry,
      (closeGaps l).length = l.length ∧
      (∀ i, ((closeGaps l).get? i).map SubtitleEntry.«end» =
        (l.get? i).map SubtitleEntry.«end») ∧
      (∀ i, ((closeGaps l).get? i).map SubtitleEntry.text =
        (l.get? i).map SubtitleEntry.text) ∧
      ((closeGaps l).get? 0).map SubtitleEntry.start =
        (l.get? 0).map SubtitleEntry.start ∧
      (∀ i, i + 1 < l.length →
        ((closeGaps l).get? (i + 1)).map SubtitleEntry.start =
          ((closeGaps l).get? i).map SubtitleEntry.«end») := by
  intro l
  match l with
  | [] => exact ⟨rfl, fun i => rfl, fun i => rfl, rfl, fun i h => absurd h (by simp)⟩
  | e :: rest =>
    refine ⟨by simp [closeGaps, closeGapsGo_length], ?_, ?_, rfl, ?_⟩
    · intro i
      cases i with
      | zero => rfl
      | succ j => simpa [closeGaps] using closeGapsGo_end rest e j
    · intro i
      cases i with
      | zero => rfl
      | succ j => simpa [closeGaps] using closeGapsGo_text rest e j
    · intro i h
      have hi : i < rest.length := by simpa using h
      have start := closeGapsGo_start rest e i hi
      cases i with
      | zero => simpa [closeGaps] using start
      | succ j =>
        have tail_end := closeGapsGo_end rest e j
        simp only [closeGaps, List.get?_cons_succ]
        rw [start, List.get?_cons_succ]
        exact tail_end.symm

/-- Witness for C3 on a concrete two-entry list at index 1. -/
theorem claim3_close_gaps_witness :
    0 + 1 < ([⟨"a", "b", "t"⟩, ⟨"c", "d", "u"⟩] : List SubtitleEntry).length ∧
    ((closeGaps [⟨"a", "b", "t"⟩, ⟨"c", "d", "u"⟩]).get? (0 + 1)).map
        SubtitleEntry.start =
      ((closeGaps [⟨"a", "b", "t"⟩, ⟨"c", "d", "u"⟩]).get? 0).map
        SubtitleEntry.«end» :=
  ⟨by decide,
    (claim3_close_gaps [⟨"a", "b", "t"⟩, ⟨"c", "d", "u"⟩]).2.2.2.2 0 (by decide)⟩

/-- Peeling the head off the blank-line-joined block list of a non-empty
tail, shifting the numbering base. -/
theorem blocks_cons (n : Nat) (e e2 : SubtitleEntry) (rest2 : List SubtitleEntry) :
    blocksJoin ((e :: e2 :: rest2).mapIdx fun i x => entryBlock (n + i + 1) x) =
      entryBlock (n + 1) e ++ "\n" ++
        blocksJoin ((e2 :: rest2).mapIdx fun i x => entryBlock (n + 1 + i + 1) x) := by
  simp only [List.mapIdx_cons, blocksJoin]
  simp only [Nat.add_zero, Nat.zero_add, Nat.add_assoc, Nat.add_comm, Nat.add_left_comm]

/-- The serialization loop, started at any counter value, produces the
blank-line-joined blocks numbered from that counter plus one. -/
theorem srtGo_eq_blocksJoin (subs : List SubtitleEntry) :
    ∀ n, srtGo n subs =
      blocksJoin (subs.mapIdx fun i e => entryBlock (n + i + 1) e) := by
  induction subs with
  | nil => intro n; rfl
  | cons e rest ih =>
    intro n
    cases rest with
    | nil => simp [srtGo, blocksJoin, entryBlock, String.append_assoc]
    | cons e2 rest2 =>
      rw [srtGo, ih (n + 1), blocks_cons]
      simp [entryBlock, String.append_assoc]

/-- C4: the serializer emits, for the entry at 0-based index `i`, the
lines `i+1`, `start --> end` and the text, each newline-terminated, with
exactly one blank line between consecutive entries and none after the
last; the numbers are exactly `1..n` and the empty sequence gives the
empty string. -/
theorem claim4_srt_serialization :
    (∀ subs : List SubtitleEntry, srtSerialize subs = srtSpecFormat subs) ∧
    srtSerialize [] = "" := by
  refine ⟨fun subs => ?_, rfl⟩
  have h : (fun (i : ℕ) (e : SubtitleEntry) => entryBlock (0 + i + 1) e) =
      fun (i : ℕ) (e : SubtitleEntry) => entryBlock (i + 1) e := by
    funext i e
    congr 1
    omega
  rw [srtSerialize, srtGo_eq_blocksJoin, h, srtSpecFormat]

/-- Padding a digit string of at most two characters to width two with
`'0'` yields exactly two digit characters. -/
theorem padStart_two_digits (p : String) (hlen : p.data.length ≤ 2)
    (hdig : ∀ c ∈ p.data, c.isDigit = true) :
    ∃ a b, (padStart p 2 '0').data = [a, b] ∧
      a.isDigit = true ∧ b.isDigit = true := by
  rcases p with ⟨l⟩
  rcases l with _ | ⟨a, _ | ⟨b, _ | ⟨c, t⟩⟩⟩
  · exact ⟨'0', '0', rfl, rfl, rfl⟩
  · exact ⟨'0', a, rfl, rfl, hdig a (by simp)⟩
  · exact ⟨a, b, rfl, hdig a (by simp), hdig b (by simp)⟩
  · simp at hlen

/-- The padded millisecond text is three digits for every frame count in
`0..29` (checked by evaluation). -/
theorem threeDigitsOk_ms_fin : ∀ n : Fin 30,
    threeDigitsOk (padStart (toString (mathRoundFramesMs ((n : Nat) : Int))) 3 '0') = true := by
  decide

/-- The padded millisecond text is three digits for an integer frame count
in `[0, 29]`. -/
theorem ms_pad_three (f : Int) (h0 : 0 ≤ f) (h29 : f ≤ 29) :
    ∃ a b c, (padStart (toString (mathRoundFramesMs f)) 3 '0').data = [a, b, c] ∧
      a.isDigit = true ∧ b.isDigit = true ∧ c.isDigit = true := by
  have hn : f.toNat < 30 := by omega
  have h3 := threeDigitsOk_ms_fin ⟨f.toNat, hn⟩
  rw [show ((⟨f.toNat, hn⟩ : Fin 30) : Nat) = f.toNat from rfl,
    Int.toNat_of_nonneg h0] at h3
  revert h3
  generalize padStart (toString (mathRoundFramesMs f)) 3 '0' = s
  intro h3
  rcases s with ⟨l⟩
  rcases l with _ | ⟨a, _ | ⟨b, _ | ⟨c, _ | ⟨d, t⟩⟩⟩⟩ <;>
    simp only [threeDigitsOk] at h3
  all_goals first
    | (simp only [Bool.and_eq_true] at h3
       exact ⟨a, b, c, rfl, h3.1.1, h3.1.2, h3.2⟩)
    | simp at h3

/-- Counterexample for C8: a frame count of 40 makes the rounded
milliseconds four digits long, and a non-numeric hour component is padded
and passed through, so the output does not always match `HH:MM:SS,mmm`. -/
theorem claim8_counterexample :
    convertTime (some "0:0:0:40") = some "00:00:00,1333" ∧
    isSrtTimeFormat "00:00:00,1333" = false ∧
    convertTime (some "ab:0:0:0") = some "ab:00:00,000" ∧
    isSrtTimeFormat "ab:00:00,000" = false := by
  refine ⟨by decide, by decide, by decide, by decide⟩

/-- C8 (amended): `convertTime` is total — for any string-or-null input it
returns null or a string, never raising — and its result matches
`HH:MM:SS,mmm` whenever the first three components are digit strings of at
most two characters and the fourth parses to a frame count in `[0, 29]`
(without those bounds the padded components or the millisecond field can
leave the pattern, as the counterexample shows). -/
theorem claim8_convertTime_shape_amended :
    (∀ t : Option String, convertTime t = none ∨
      ∃ r : String, convertTime t = some r) ∧
    (∀ (s p0 p1 p2 p3 : String) (f : Int),
      jsTrim s ≠ "" → splitDelim (jsTrim s) = [p0, p1, p2, p3] →
      p0.data.length ≤ 2 → (∀ c ∈ p0.data, c.isDigit = true) →
      p1.data.length ≤ 2 → (∀ c ∈ p1.data, c.isDigit = true) →
      p2.data.length ≤ 2 → (∀ c ∈ p2.data, c.isDigit = true) →
      parseIntJS p3 = some f → 0 ≤ f → f ≤ 29 →
      ∃ r, convertTime (some s) = some r ∧ isSrtTimeFormat r = true) := by
  constructor
  · intro t
    match h : convertTime t with
    | none => exact Or.inl rfl
    | some r => exact Or.inr ⟨r, rfl⟩
  · intro s p0 p1 p2 p3 f h1 h2 hl0 hd0 hl1 hd1 hl2 hd2 h3 hf0 hf29
    obtain ⟨a1, a2, ha, ha1, ha2⟩ := padStart_two_digits p0 hl0 hd0
    obtain ⟨b1, b2, hb, hb1, hb2⟩ := padStart_two_digits p1 hl1 hd1
    obtain ⟨c1, c2, hc, hc1, hc2⟩ := padStart_two_digits p2 hl2 hd2
    obtain ⟨d1, d2, d3, hd, he1, he2, he3⟩ := ms_pad_three f hf0 hf29
    refine ⟨_, convertTime_some_of_parts s p0 p1 p2 p3 f h1 h2 h3, ?_⟩
    have hdata : (padStart p0 2 '0' ++ ":" ++ padStart p1 2 '0' ++ ":" ++
        padStart p2 2 '0' ++ "," ++
        padStart (toString (mathRoundFramesMs f)) 3 '0').data =
        [a1, a2, ':', b1, b2, ':', c1, c2, ',', d1, d2, d3] := by
      simp only [String.data_append, ha, hb, hc, hd]
      rfl
    unfold isSrtTimeFormat
    rw [hdata]
    simp [ha1, ha2, hb1, hb2, hc1, hc2, he1, he2, he3]

/-- Witness for the amended C8 at the concrete input `"1:2:3:4"`. -/
theorem claim8_convertTime_shape_amended_witness :
    jsTrim "1:2:3:4" ≠ "" ∧
    ∃ r, convertTime (some "1:2:3:4") = some r ∧ isSrtTimeFormat r = true :=
  ⟨by decide,
    claim8_convertTime_shape_amended.2 "1:2:3:4" "1" "2" "3" "4" 4
      (by decide) (by decide) (by decide) (by decide) (by decide) (by decide)
      (by decide) (by decide) (by decide) (by decide) (by decide)⟩

end CsvToSrt
